import Mathlib

/-!
Verification of `src/odpi-ext/dpi-ext.c` from kubo/rust-oracle.

The file under verification is a small C shim with two exported functions,
`dpi_ext_dpiStmt_getFnCode` and `dpi_ext_dpiConn_getServerStatus`, plus the
static helper `dpiConn__check` copied from the driver.  Each shim function
begins a public-function guard on a handle, optionally calls the driver's
generic attribute getter `dpiOci__attrGet`, and ends the guard.

The external ODPI-C driver routines (`dpiGen__startPublicFn`,
`dpiGen__endPublicFn`, `dpiConn__checkConnected`, `dpiOci__attrGet`) are not
part of this repository's sources; the shim treats them as opaque
collaborators.  They are therefore modelled as parameters: a `Driver σ`
bundles the four routines, each threading an abstract driver state `σ` and,
for `attrGet` only, the caller-visible memory (`attrGet` is the only routine
that receives the output pointer, exactly as in the C signatures).  The shim
functions are translated line by line from the C source and additionally
return the trace of external calls they make, so that claims about which
routines are (not) invoked become statements about the trace.
-/

/-- DPI_SUCCESS, from the driver's dpi.h. -/
def DPI_SUCCESS : Int := 0

/-- DPI_FAILURE, from the driver's dpi.h. -/
def DPI_FAILURE : Int := -1

/-- DPI_HTYPE_CONN, internal object-type tag from the driver's dpiImpl.h
(external to this repository; the exact value is irrelevant to every claim,
only its identity as a constant matters). -/
def DPI_HTYPE_CONN : Nat := 4001

/-- DPI_HTYPE_STMT, internal object-type tag from the driver's dpiImpl.h. -/
def DPI_HTYPE_STMT : Nat := 4003

/-- DPI_OCI_HTYPE_STMT, OCI handle type for a statement (dpiImpl.h). -/
def DPI_OCI_HTYPE_STMT : Nat := 4

/-- DPI_OCI_HTYPE_SERVER, OCI handle type for a server (dpiImpl.h). -/
def DPI_OCI_HTYPE_SERVER : Nat := 8

/-- OCI_ATTR_SQLFNCODE, defined in dpi-ext.c line 4: `#define OCI_ATTR_SQLFNCODE 10`. -/
def OCI_ATTR_SQLFNCODE : Nat := 10

/-- DPI_OCI_ATTR_SERVER_STATUS, attribute code from the driver's dpiImpl.h. -/
def DPI_OCI_ATTR_SERVER_STATUS : Nat := 143

/-- DPI_OCI_SERVER_NOT_CONNECTED, defined in dpi-ext.h: `#define DPI_OCI_SERVER_NOT_CONNECTED 0x0`. -/
def DPI_OCI_SERVER_NOT_CONNECTED : Nat := 0x0

/-- DPI_OCI_SERVER_NORMAL, defined in dpi-ext.h: `#define DPI_OCI_SERVER_NORMAL 0x1`. -/
def DPI_OCI_SERVER_NORMAL : Nat := 0x1

/-- A machine address.  `0` is the null pointer. -/
abbrev Ptr := Nat

/-- Caller-visible memory: a map from addresses to stored scalar values.
The shim itself never reads or writes it; only `attrGet` receives it. -/
abbrev Mem := Ptr → Nat

/-- The fields of `dpiStmt` the shim reads: the address of the object itself
(`stmt`, passed to the guard routines) and `stmt->handle`, the native OCI
statement handle passed to `attrGet`. -/
structure DpiStmt where
  id : Ptr
  handle : Ptr

/-- The fields of `dpiConn` the shim reads: the address of the object itself
and `conn->serverHandle`, the nested native server handle passed to
`attrGet`. -/
structure DpiConn where
  id : Ptr
  serverHandle : Ptr

/-- One external driver call made by the shim, with its arguments and the
status the driver returned.  `attrGet` records the native handle, the OCI
handle type, the output pointer, the value-length pointer (the shim passes
null), the attribute code, the action string and the returned status. -/
inductive ExtCall where
  | startPublicFn (handle : Ptr) (objType : Nat) (fnName : String) (result : Int)
  | checkConnected (handle : Ptr) (result : Int)
  | attrGet (native : Ptr) (htype : Nat) (outPtr : Ptr) (sizePtr : Ptr)
      (attr : Nat) (action : String) (result : Int)
  | endPublicFn (handle : Ptr) (returnValue : Int) (result : Int)
deriving DecidableEq, Repr

/-- True exactly on `attrGet` events. -/
def ExtCall.isAttrGet : ExtCall → Bool
  | .attrGet _ _ _ _ _ _ _ => true
  | _ => false

/-- True exactly on `endPublicFn` events. -/
def ExtCall.isEnd : ExtCall → Bool
  | .endPublicFn _ _ _ => true
  | _ => false

/-- The native handle targeted by an `attrGet` event, if any. -/
def ExtCall.attrTarget : ExtCall → Option Ptr
  | .attrGet n _ _ _ _ _ _ => some n
  | _ => none

/-- The opaque external driver routines the shim links against, threading an
abstract driver state `σ` (which stands for the driver's handle objects,
error contexts and thread-local state).  Only `attrGet` receives the
caller-visible memory, mirroring the C signatures: the output pointer is
passed to `dpiOci__attrGet` alone. -/
structure Driver (σ : Type) where
  startPublicFn : σ → Ptr → Nat → String → σ × Int
  checkConnected : σ → Ptr → σ × Int
  attrGet : σ → Mem → Ptr → Nat → Ptr → Ptr → Nat → String → σ × Mem × Int
  endPublicFn : σ → Ptr → Int → σ × Int

/-- The world a shim call runs in: the driver's abstract state plus the
caller-visible memory. -/
structure World (σ : Type) where
  driver : σ
  mem : Mem

/-- Translation of the static helper `dpiConn__check` (dpi-ext.c lines 7-12,
copied there from the driver's dpiConn.c):

    if (dpiGen__startPublicFn(conn, DPI_HTYPE_CONN, fnName, error) < 0)
        return DPI_FAILURE;
    return dpiConn__checkConnected(conn, error);

Returns the updated driver state, the status, and the trace of external
calls made. -/
def dpiConn__check {σ : Type} (d : Driver σ) (s : σ) (conn : DpiConn)
    (fnName : String) : σ × Int × List ExtCall :=
  let sp := d.startPublicFn s conn.id DPI_HTYPE_CONN fnName
  if sp.2 < 0 then
    (sp.1, DPI_FAILURE, [.startPublicFn conn.id DPI_HTYPE_CONN fnName sp.2])
  else
    let cc := d.checkConnected sp.1 conn.id
    (cc.1, cc.2,
      [.startPublicFn conn.id DPI_HTYPE_CONN fnName sp.2,
       .checkConnected conn.id cc.2])

/-- Translation of `dpi_ext_dpiStmt_getFnCode` (dpi-ext.c lines 14-24):

    if (dpiGen__startPublicFn(stmt, DPI_HTYPE_STMT, __func__, &error) < 0)
        return dpiGen__endPublicFn(stmt, DPI_FAILURE, &error);
    status = dpiOci__attrGet(stmt->handle, DPI_OCI_HTYPE_STMT, sqlfncode, 0,
            OCI_ATTR_SQLFNCODE, "get sql function code", &error);
    return dpiGen__endPublicFn(stmt, status, &error);

Returns the final world, the C return value, and the trace of external
calls.  The local `dpiError error` is part of the driver state threading. -/
def dpi_ext_dpiStmt_getFnCode {σ : Type} (d : Driver σ) (w : World σ)
    (stmt : DpiStmt) (sqlfncode : Ptr) : World σ × Int × List ExtCall :=
  let sp := d.startPublicFn w.driver stmt.id DPI_HTYPE_STMT
      "dpi_ext_dpiStmt_getFnCode"
  if sp.2 < 0 then
    let ep := d.endPublicFn sp.1 stmt.id DPI_FAILURE
    (⟨ep.1, w.mem⟩, ep.2,
      [.startPublicFn stmt.id DPI_HTYPE_STMT "dpi_ext_dpiStmt_getFnCode" sp.2,
       .endPublicFn stmt.id DPI_FAILURE ep.2])
  else
    let ag := d.attrGet sp.1 w.mem stmt.handle DPI_OCI_HTYPE_STMT sqlfncode 0
        OCI_ATTR_SQLFNCODE "get sql function code"
    let ep := d.endPublicFn ag.1 stmt.id ag.2.2
    (⟨ep.1, ag.2.1⟩, ep.2,
      [.startPublicFn stmt.id DPI_HTYPE_STMT "dpi_ext_dpiStmt_getFnCode" sp.2,
       .attrGet stmt.handle DPI_OCI_HTYPE_STMT sqlfncode 0 OCI_ATTR_SQLFNCODE
         "get sql function code" ag.2.2,
       .endPublicFn stmt.id ag.2.2 ep.2])

/-- Translation of `dpi_ext_dpiConn_getServerStatus` (dpi-ext.c lines 26-36):

    if (dpiConn__check(conn, __func__, &error) < 0)
        return dpiGen__endPublicFn(conn, DPI_FAILURE, &error);
    status = dpiOci__attrGet(conn->serverHandle, DPI_OCI_HTYPE_SERVER,
            server_status, 0, DPI_OCI_ATTR_SERVER_STATUS,
            "get server status", &error);
    return dpiGen__endPublicFn(conn, status, &error); -/
def dpi_ext_dpiConn_getServerStatus {σ : Type} (d : Driver σ) (w : World σ)
    (conn : DpiConn) (server_status : Ptr) : World σ × Int × List ExtCall :=
  let ck := dpiConn__check d w.driver conn "dpi_ext_dpiConn_getServerStatus"
  if ck.2.1 < 0 then
    let ep := d.endPublicFn ck.1 conn.id DPI_FAILURE
    (⟨ep.1, w.mem⟩, ep.2, ck.2.2 ++ [.endPublicFn conn.id DPI_FAILURE ep.2])
  else
    let ag := d.attrGet ck.1 w.mem conn.serverHandle DPI_OCI_HTYPE_SERVER
        server_status 0 DPI_OCI_ATTR_SERVER_STATUS "get server status"
    let ep := d.endPublicFn ag.1 conn.id ag.2.2
    (⟨ep.1, ag.2.1⟩, ep.2,
      ck.2.2 ++
      [.attrGet conn.serverHandle DPI_OCI_HTYPE_SERVER server_status 0
         DPI_OCI_ATTR_SERVER_STATUS "get server status" ag.2.2,
       .endPublicFn conn.id ag.2.2 ep.2])

/-- The result of the `dpiGen__startPublicFn` call made by
`dpi_ext_dpiStmt_getFnCode` (a named subterm of that function, for stating
theorems). -/
def stmtStart {σ : Type} (d : Driver σ) (w : World σ) (stmt : DpiStmt) :
    σ × Int :=
  d.startPublicFn w.driver stmt.id DPI_HTYPE_STMT "dpi_ext_dpiStmt_getFnCode"

/-- The result of the `dpiOci__attrGet` call made by
`dpi_ext_dpiStmt_getFnCode` on its success path (a named subterm). -/
def stmtAttr {σ : Type} (d : Driver σ) (w : World σ) (stmt : DpiStmt)
    (sqlfncode : Ptr) : σ × Mem × Int :=
  d.attrGet (stmtStart d w stmt).1 w.mem stmt.handle DPI_OCI_HTYPE_STMT
    sqlfncode 0 OCI_ATTR_SQLFNCODE "get sql function code"

/-- The result of the `dpiGen__startPublicFn` call made (via `dpiConn__check`)
by `dpi_ext_dpiConn_getServerStatus` (a named subterm). -/
def connStart {σ : Type} (d : Driver σ) (w : World σ) (conn : DpiConn) :
    σ × Int :=
  d.startPublicFn w.driver conn.id DPI_HTYPE_CONN
    "dpi_ext_dpiConn_getServerStatus"

/-- The result of the `dpiConn__checkConnected` call made (via
`dpiConn__check`) by `dpi_ext_dpiConn_getServerStatus` (a named subterm). -/
def connCheck {σ : Type} (d : Driver σ) (w : World σ) (conn : DpiConn) :
    σ × Int :=
  d.checkConnected (connStart d w conn).1 conn.id

/-- The result of the `dpiOci__attrGet` call made by
`dpi_ext_dpiConn_getServerStatus` on its success path (a named subterm). -/
def connAttr {σ : Type} (d : Driver σ) (w : World σ) (conn : DpiConn)
    (server_status : Ptr) : σ × Mem × Int :=
  d.attrGet (connCheck d w conn).1 w.mem conn.serverHandle
    DPI_OCI_HTYPE_SERVER server_status 0 DPI_OCI_ATTR_SERVER_STATUS
    "get server status"

/-- Path equation: when `dpiGen__startPublicFn` fails on the statement handle,
`dpi_ext_dpiStmt_getFnCode` ends the guard with DPI_FAILURE and makes no
other external call. -/
theorem getFnCode_eq_startFail {σ : Type} (d : Driver σ) (w : World σ)
    (stmt : DpiStmt) (p : Ptr) (h : (stmtStart d w stmt).2 < 0) :
    dpi_ext_dpiStmt_getFnCode d w stmt p =
      (⟨(d.endPublicFn (stmtStart d w stmt).1 stmt.id DPI_FAILURE).1, w.mem⟩,
       (d.endPublicFn (stmtStart d w stmt).1 stmt.id DPI_FAILURE).2,
       [.startPublicFn stmt.id DPI_HTYPE_STMT "dpi_ext_dpiStmt_getFnCode"
          (stmtStart d w stmt).2,
        .endPublicFn stmt.id DPI_FAILURE
          (d.endPublicFn (stmtStart d w stmt).1 stmt.id DPI_FAILURE).2]) := by
  simp only [stmtStart] at h
  simp [dpi_ext_dpiStmt_getFnCode, stmtStart, h]

/-- Path equation: when `dpiGen__startPublicFn` succeeds on the statement
handle, `dpi_ext_dpiStmt_getFnCode` calls `dpiOci__attrGet` and ends the
guard with the status of that call. -/
theorem getFnCode_eq_ok {σ : Type} (d : Driver σ) (w : World σ)
    (stmt : DpiStmt) (p : Ptr) (h : ¬ (stmtStart d w stmt).2 < 0) :
    dpi_ext_dpiStmt_getFnCode d w stmt p =
      (⟨(d.endPublicFn (stmtAttr d w stmt p).1 stmt.id
           (stmtAttr d w stmt p).2.2).1, (stmtAttr d w stmt p).2.1⟩,
       (d.endPublicFn (stmtAttr d w stmt p).1 stmt.id
          (stmtAttr d w stmt p).2.2).2,
       [.startPublicFn stmt.id DPI_HTYPE_STMT "dpi_ext_dpiStmt_getFnCode"
          (stmtStart d w stmt).2,
        .attrGet stmt.handle DPI_OCI_HTYPE_STMT p 0 OCI_ATTR_SQLFNCODE
          "get sql function code" (stmtAttr d w stmt p).2.2,
        .endPublicFn stmt.id (stmtAttr d w stmt p).2.2
          (d.endPublicFn (stmtAttr d w stmt p).1 stmt.id
             (stmtAttr d w stmt p).2.2).2]) := by
  simp only [stmtStart] at h
  simp [dpi_ext_dpiStmt_getFnCode, stmtStart, stmtAttr, h]

/-- Path equation: when `dpiGen__startPublicFn` fails on the connection
handle, `dpiConn__check` reports DPI_FAILURE at once, so
`dpi_ext_dpiConn_getServerStatus` ends the guard with DPI_FAILURE without
calling `dpiConn__checkConnected` or `dpiOci__attrGet`. -/
theorem getServerStatus_eq_startFail {σ : Type} (d : Driver σ) (w : World σ)
    (conn : DpiConn) (q : Ptr) (h : (connStart d w conn).2 < 0) :
    dpi_ext_dpiConn_getServerStatus d w conn q =
      (⟨(d.endPublicFn (connStart d w conn).1 conn.id DPI_FAILURE).1, w.mem⟩,
       (d.endPublicFn (connStart d w conn).1 conn.id DPI_FAILURE).2,
       [.startPublicFn conn.id DPI_HTYPE_CONN
          "dpi_ext_dpiConn_getServerStatus" (connStart d w conn).2,
        .endPublicFn conn.id DPI_FAILURE
          (d.endPublicFn (connStart d w conn).1 conn.id DPI_FAILURE).2]) := by
  simp only [connStart] at h
  simp [dpi_ext_dpiConn_getServerStatus, dpiConn__check, connStart, h,
    DPI_FAILURE]

/-- Path equation: when the guard succeeds but `dpiConn__checkConnected`
fails, `dpi_ext_dpiConn_getServerStatus` ends the guard with DPI_FAILURE
without calling `dpiOci__attrGet`. -/
theorem getServerStatus_eq_notConnected {σ : Type} (d : Driver σ)
    (w : World σ) (conn : DpiConn) (q : Ptr)
    (h1 : ¬ (connStart d w conn).2 < 0) (h2 : (connCheck d w conn).2 < 0) :
    dpi_ext_dpiConn_getServerStatus d w conn q =
      (⟨(d.endPublicFn (connCheck d w conn).1 conn.id DPI_FAILURE).1, w.mem⟩,
       (d.endPublicFn (connCheck d w conn).1 conn.id DPI_FAILURE).2,
       [.startPublicFn conn.id DPI_HTYPE_CONN
          "dpi_ext_dpiConn_getServerStatus" (connStart d w conn).2,
        .checkConnected conn.id (connCheck d w conn).2,
        .endPublicFn conn.id DPI_FAILURE
          (d.endPublicFn (connCheck d w conn).1 conn.id DPI_FAILURE).2]) := by
  simp only [connStart] at h1
  simp only [connCheck, connStart] at h2
  simp [dpi_ext_dpiConn_getServerStatus, dpiConn__check, connStart, connCheck,
    h1, h2]

/-- Path equation: when the guard and the connectedness check both succeed,
`dpi_ext_dpiConn_getServerStatus` calls `dpiOci__attrGet` on the server
sub-handle and ends the guard with the status of that call. -/
theorem getServerStatus_eq_ok {σ : Type} (d : Driver σ) (w : World σ)
    (conn : DpiConn) (q : Ptr)
    (h1 : ¬ (connStart d w conn).2 < 0) (h2 : ¬ (connCheck d w conn).2 < 0) :
    dpi_ext_dpiConn_getServerStatus d w conn q =
      (⟨(d.endPublicFn (connAttr d w conn q).1 conn.id
           (connAttr d w conn q).2.2).1, (connAttr d w conn q).2.1⟩,
       (d.endPublicFn (connAttr d w conn q).1 conn.id
          (connAttr d w conn q).2.2).2,
       [.startPublicFn conn.id DPI_HTYPE_CONN
          "dpi_ext_dpiConn_getServerStatus" (connStart d w conn).2,
        .checkConnected conn.id (connCheck d w conn).2,
        .attrGet conn.serverHandle DPI_OCI_HTYPE_SERVER q 0
          DPI_OCI_ATTR_SERVER_STATUS "get server status"
          (connAttr d w conn q).2.2,
        .endPublicFn conn.id (connAttr d w conn q).2.2
          (d.endPublicFn (connAttr d w conn q).1 conn.id
             (connAttr d w conn q).2.2).2]) := by
  simp only [connStart] at h1
  simp only [connCheck, connStart] at h2
  simp [dpi_ext_dpiConn_getServerStatus, dpiConn__check, connStart, connCheck,
    connAttr, h1, h2]

/-- A concrete driver used to instantiate theorems: every routine succeeds,
`attrGet` stores the value 1 at the output pointer, and `endPublicFn`
returns the status it is given. -/
def okDriver : Driver Unit where
  startPublicFn := fun s _ _ _ => (s, DPI_SUCCESS)
  checkConnected := fun s _ => (s, DPI_SUCCESS)
  attrGet := fun s m _ _ p _ _ _ =>
    (s, fun q => if q = p then 1 else m q, DPI_SUCCESS)
  endPublicFn := fun s _ v => (s, v)

/-- A concrete driver whose `startPublicFn` always fails (an invalid
handle). -/
def startFailDriver : Driver Unit :=
  { okDriver with startPublicFn := fun s _ _ _ => (s, DPI_FAILURE) }

/-- A concrete driver whose `checkConnected` always fails (a valid but
disconnected connection). -/
def notConnDriver : Driver Unit :=
  { okDriver with checkConnected := fun s _ => (s, DPI_FAILURE) }

/-- A concrete world for instantiating theorems: trivial driver state,
all memory cells hold 0. -/
def w0 : World Unit := ⟨(), fun _ => 0⟩

/-- A concrete statement handle for instantiating theorems. -/
def stmt0 : DpiStmt := ⟨11, 21⟩

/-- A concrete connection handle for instantiating theorems; its server
sub-handle differs from the handle itself. -/
def conn0 : DpiConn := ⟨12, 22⟩

/-- C1: each exported function returns 0 (DPI_SUCCESS) exactly when the guard
setup (and, for the connection variant, the connectedness check) and the
underlying attribute retrieval all succeed, and a nonzero code whenever any
step fails.  The hypothesis `hend` is the driver's contract that
`dpiGen__endPublicFn` returns the status value passed to it. -/
theorem claim_C1_status_iff {σ : Type} (d : Driver σ) (w : World σ)
    (stmt : DpiStmt) (conn : DpiConn) (p q : Ptr)
    (hend : ∀ s h v, (d.endPublicFn s h v).2 = v) :
    ((dpi_ext_dpiStmt_getFnCode d w stmt p).2.1 = DPI_SUCCESS ↔
      0 ≤ (stmtStart d w stmt).2 ∧
      (stmtAttr d w stmt p).2.2 = DPI_SUCCESS) ∧
    ((dpi_ext_dpiConn_getServerStatus d w conn q).2.1 = DPI_SUCCESS ↔
      0 ≤ (connStart d w conn).2 ∧ 0 ≤ (connCheck d w conn).2 ∧
      (connAttr d w conn q).2.2 = DPI_SUCCESS) := by
  constructor
  · by_cases h : (stmtStart d w stmt).2 < 0
    · rw [getFnCode_eq_startFail d w stmt p h]
      have h' : ¬ 0 ≤ (stmtStart d w stmt).2 := not_le.mpr h
      simp [hend, DPI_SUCCESS, DPI_FAILURE, h']
    · rw [getFnCode_eq_ok d w stmt p h]
      have h0 : 0 ≤ (stmtStart d w stmt).2 := not_lt.mp h
      simp [hend, h0]
  · by_cases h1 : (connStart d w conn).2 < 0
    · rw [getServerStatus_eq_startFail d w conn q h1]
      have h' : ¬ 0 ≤ (connStart d w conn).2 := not_le.mpr h1
      simp [hend, DPI_SUCCESS, DPI_FAILURE, h']
    · by_cases h2 : (connCheck d w conn).2 < 0
      · rw [getServerStatus_eq_notConnected d w conn q h1 h2]
        have h' : ¬ 0 ≤ (connCheck d w conn).2 := not_le.mpr h2
        simp [hend, DPI_SUCCESS, DPI_FAILURE, h']
      · rw [getServerStatus_eq_ok d w conn q h1 h2]
        have g1 : 0 ≤ (connStart d w conn).2 := not_lt.mp h1
        have g2 : 0 ≤ (connCheck d w conn).2 := not_lt.mp h2
        simp [hend, g1, g2]

/-- Witness for C1 at a concrete driver, world and handles. -/
theorem claim_C1_witness :
    ((dpi_ext_dpiStmt_getFnCode okDriver w0 stmt0 100).2.1 = DPI_SUCCESS ↔
      0 ≤ (stmtStart okDriver w0 stmt0).2 ∧
      (stmtAttr okDriver w0 stmt0 100).2.2 = DPI_SUCCESS) ∧
    ((dpi_ext_dpiConn_getServerStatus okDriver w0 conn0 101).2.1 =
        DPI_SUCCESS ↔
      0 ≤ (connStart okDriver w0 conn0).2 ∧
      0 ≤ (connCheck okDriver w0 conn0).2 ∧
      (connAttr okDriver w0 conn0 101).2.2 = DPI_SUCCESS) :=
  claim_C1_status_iff okDriver w0 stmt0 conn0 100 101 (fun _ _ _ => rfl)

/-- C2: for a valid but disconnected connection handle (the guard succeeds,
the connectedness check fails), `dpi_ext_dpiConn_getServerStatus` returns
failure and never invokes `dpiOci__attrGet`: the trace is exactly the guard
begin, the failed connectedness check, and the guard end. -/
theorem claim_C2_disconnected_no_attrGet {σ : Type} (d : Driver σ)
    (w : World σ) (conn : DpiConn) (q : Ptr)
    (hend : ∀ s h v, (d.endPublicFn s h v).2 = v)
    (h1 : 0 ≤ (connStart d w conn).2)
    (h2 : (connCheck d w conn).2 < 0) :
    (dpi_ext_dpiConn_getServerStatus d w conn q).2.1 = DPI_FAILURE ∧
    (∀ e ∈ (dpi_ext_dpiConn_getServerStatus d w conn q).2.2,
      e.isAttrGet = false) ∧
    (dpi_ext_dpiConn_getServerStatus d w conn q).2.2 =
      [.startPublicFn conn.id DPI_HTYPE_CONN
         "dpi_ext_dpiConn_getServerStatus" (connStart d w conn).2,
       .checkConnected conn.id (connCheck d w conn).2,
       .endPublicFn conn.id DPI_FAILURE DPI_FAILURE] := by
  rw [getServerStatus_eq_notConnected d w conn q (not_lt.mpr h1) h2]
  refine ⟨hend _ _ _, ?_, by simp [hend]⟩
  intro e he
  simp only [List.mem_cons, List.not_mem_nil, or_false] at he
  rcases he with h | h | h <;> subst h <;> rfl

/-- Witness for C2: a driver whose connectedness check fails. -/
theorem claim_C2_witness :
    (dpi_ext_dpiConn_getServerStatus notConnDriver w0 conn0 101).2.1 =
      DPI_FAILURE ∧
    (∀ e ∈ (dpi_ext_dpiConn_getServerStatus notConnDriver w0 conn0 101).2.2,
      e.isAttrGet = false) ∧
    (dpi_ext_dpiConn_getServerStatus notConnDriver w0 conn0 101).2.2 =
      [.startPublicFn conn0.id DPI_HTYPE_CONN
         "dpi_ext_dpiConn_getServerStatus" (connStart notConnDriver w0 conn0).2,
       .checkConnected conn0.id (connCheck notConnDriver w0 conn0).2,
       .endPublicFn conn0.id DPI_FAILURE DPI_FAILURE] :=
  claim_C2_disconnected_no_attrGet notConnDriver w0 conn0 101
    (fun _ _ _ => rfl) (by decide) (by decide)

/-- C3: for a statement handle on which `dpiGen__startPublicFn` fails,
`dpi_ext_dpiStmt_getFnCode` returns failure, never invokes
`dpiOci__attrGet`, and leaves the whole caller-visible memory — in
particular the output cell `*sqlfncode` — unwritten. -/
theorem claim_C3_invalid_stmt_no_write {σ : Type} (d : Driver σ)
    (w : World σ) (stmt : DpiStmt) (p : Ptr)
    (hend : ∀ s h v, (d.endPublicFn s h v).2 = v)
    (h : (stmtStart d w stmt).2 < 0) :
    (dpi_ext_dpiStmt_getFnCode d w stmt p).2.1 = DPI_FAILURE ∧
    (dpi_ext_dpiStmt_getFnCode d w stmt p).1.mem = w.mem ∧
    (∀ e ∈ (dpi_ext_dpiStmt_getFnCode d w stmt p).2.2,
      e.isAttrGet = false) := by
  rw [getFnCode_eq_startFail d w stmt p h]
  refine ⟨hend _ _ _, rfl, ?_⟩
  intro e he
  simp only [List.mem_cons, List.not_mem_nil, or_false] at he
  rcases he with h' | h' <;> subst h' <;> rfl

/-- Witness for C3: a driver whose guard setup fails. -/
theorem claim_C3_witness :
    (dpi_ext_dpiStmt_getFnCode startFailDriver w0 stmt0 100).2.1 =
      DPI_FAILURE ∧
    (dpi_ext_dpiStmt_getFnCode startFailDriver w0 stmt0 100).1.mem =
      w0.mem ∧
    (∀ e ∈ (dpi_ext_dpiStmt_getFnCode startFailDriver w0 stmt0 100).2.2,
      e.isAttrGet = false) :=
  claim_C3_invalid_stmt_no_write startFailDriver w0 stmt0 100
    (fun _ _ _ => rfl) (by decide)

/-- C4: for a statement handle on which the guard succeeds,
`dpi_ext_dpiStmt_getFnCode` invokes `dpiOci__attrGet` on the statement's
native handle `stmt->handle` with OCI statement handle type and attribute
code `OCI_ATTR_SQLFNCODE` (which equals 10), exposes exactly the memory
that call produced (the retrieved value written to the output parameter),
and returns the status of that call. -/
theorem claim_C4_stmt_forwards_sqlfncode {σ : Type} (d : Driver σ)
    (w : World σ) (stmt : DpiStmt) (p : Ptr)
    (hend : ∀ s h v, (d.endPublicFn s h v).2 = v)
    (h : 0 ≤ (stmtStart d w stmt).2) :
    (dpi_ext_dpiStmt_getFnCode d w stmt p).2.1 =
      (stmtAttr d w stmt p).2.2 ∧
    (dpi_ext_dpiStmt_getFnCode d w stmt p).1.mem =
      (stmtAttr d w stmt p).2.1 ∧
    (dpi_ext_dpiStmt_getFnCode d w stmt p).2.2 =
      [.startPublicFn stmt.id DPI_HTYPE_STMT "dpi_ext_dpiStmt_getFnCode"
         (stmtStart d w stmt).2,
       .attrGet stmt.handle DPI_OCI_HTYPE_STMT p 0 OCI_ATTR_SQLFNCODE
         "get sql function code" (stmtAttr d w stmt p).2.2,
       .endPublicFn stmt.id (stmtAttr d w stmt p).2.2
         (stmtAttr d w stmt p).2.2] ∧
    OCI_ATTR_SQLFNCODE = 10 := by
  rw [getFnCode_eq_ok d w stmt p (not_lt.mpr h)]
  exact ⟨hend _ _ _, rfl, by simp [hend], rfl⟩

/-- Witness for C4 at the all-succeeding driver. -/
theorem claim_C4_witness :
    (dpi_ext_dpiStmt_getFnCode okDriver w0 stmt0 100).2.1 =
      (stmtAttr okDriver w0 stmt0 100).2.2 ∧
    (dpi_ext_dpiStmt_getFnCode okDriver w0 stmt0 100).1.mem =
      (stmtAttr okDriver w0 stmt0 100).2.1 ∧
    (dpi_ext_dpiStmt_getFnCode okDriver w0 stmt0 100).2.2 =
      [.startPublicFn stmt0.id DPI_HTYPE_STMT "dpi_ext_dpiStmt_getFnCode"
         (stmtStart okDriver w0 stmt0).2,
       .attrGet stmt0.handle DPI_OCI_HTYPE_STMT 100 0 OCI_ATTR_SQLFNCODE
         "get sql function code" (stmtAttr okDriver w0 stmt0 100).2.2,
       .endPublicFn stmt0.id (stmtAttr okDriver w0 stmt0 100).2.2
         (stmtAttr okDriver w0 stmt0 100).2.2] ∧
    OCI_ATTR_SQLFNCODE = 10 :=
  claim_C4_stmt_forwards_sqlfncode okDriver w0 stmt0 100
    (fun _ _ _ => rfl) (by decide)

/-- C5: for a valid, connected connection handle,
`dpi_ext_dpiConn_getServerStatus` invokes `dpiOci__attrGet` on the nested
server sub-handle `conn->serverHandle` with handle type
`DPI_OCI_HTYPE_SERVER` and attribute `DPI_OCI_ATTR_SERVER_STATUS`; no
`attrGet` in the trace targets the connection handle itself (the handles
being distinct), and the memory the call exposes is exactly what that
`attrGet` produced (the result written to the output parameter). -/
theorem claim_C5_conn_targets_serverHandle {σ : Type} (d : Driver σ)
    (w : World σ) (conn : DpiConn) (q : Ptr)
    (hend : ∀ s h v, (d.endPublicFn s h v).2 = v)
    (h1 : 0 ≤ (connStart d w conn).2)
    (h2 : 0 ≤ (connCheck d w conn).2)
    (hne : conn.serverHandle ≠ conn.id) :
    (dpi_ext_dpiConn_getServerStatus d w conn q).2.2 =
      [.startPublicFn conn.id DPI_HTYPE_CONN
         "dpi_ext_dpiConn_getServerStatus" (connStart d w conn).2,
       .checkConnected conn.id (connCheck d w conn).2,
       .attrGet conn.serverHandle DPI_OCI_HTYPE_SERVER q 0
         DPI_OCI_ATTR_SERVER_STATUS "get server status"
         (connAttr d w conn q).2.2,
       .endPublicFn conn.id (connAttr d w conn q).2.2
         (connAttr d w conn q).2.2] ∧
    (∀ e ∈ (dpi_ext_dpiConn_getServerStatus d w conn q).2.2,
      e.attrTarget ≠ some conn.id) ∧
    (dpi_ext_dpiConn_getServerStatus d w conn q).1.mem =
      (connAttr d w conn q).2.1 ∧
    (dpi_ext_dpiConn_getServerStatus d w conn q).2.1 =
      (connAttr d w conn q).2.2 := by
  rw [getServerStatus_eq_ok d w conn q (not_lt.mpr h1) (not_lt.mpr h2)]
  refine ⟨by simp [hend], ?_, rfl, hend _ _ _⟩
  intro e he
  simp only [List.mem_cons, List.not_mem_nil, or_false] at he
  rcases he with h | h | h | h <;> subst h <;>
    simp [ExtCall.attrTarget, hne]

/-- Witness for C5 at the all-succeeding driver. -/
theorem claim_C5_witness :
    (dpi_ext_dpiConn_getServerStatus okDriver w0 conn0 101).2.2 =
      [.startPublicFn conn0.id DPI_HTYPE_CONN
         "dpi_ext_dpiConn_getServerStatus" (connStart okDriver w0 conn0).2,
       .checkConnected conn0.id (connCheck okDriver w0 conn0).2,
       .attrGet conn0.serverHandle DPI_OCI_HTYPE_SERVER 101 0
         DPI_OCI_ATTR_SERVER_STATUS "get server status"
         (connAttr okDriver w0 conn0 101).2.2,
       .endPublicFn conn0.id (connAttr okDriver w0 conn0 101).2.2
         (connAttr okDriver w0 conn0 101).2.2] ∧
    (∀ e ∈ (dpi_ext_dpiConn_getServerStatus okDriver w0 conn0 101).2.2,
      e.attrTarget ≠ some conn0.id) ∧
    (dpi_ext_dpiConn_getServerStatus okDriver w0 conn0 101).1.mem =
      (connAttr okDriver w0 conn0 101).2.1 ∧
    (dpi_ext_dpiConn_getServerStatus okDriver w0 conn0 101).2.1 =
      (connAttr okDriver w0 conn0 101).2.2 :=
  claim_C5_conn_targets_serverHandle okDriver w0 conn0 101
    (fun _ _ _ => rfl) (by decide) (by decide) (by decide)

/-- C6: when `dpi_ext_dpiConn_getServerStatus` returns success, the 32-bit
value written to the output cell lies in the native driver's connection
state value space `enum` (the driver contract `henum`), a space containing
at least `DPI_OCI_SERVER_NOT_CONNECTED` and `DPI_OCI_SERVER_NORMAL`, which
this layer defines as 0x0 and 0x1. -/
theorem claim_C6_server_status_enum {σ : Type} (d : Driver σ)
    (w : World σ) (conn : DpiConn) (q : Ptr) (enum : Nat → Prop)
    (hend : ∀ s h v, (d.endPublicFn s h v).2 = v)
    (henum : ∀ s m h t p sp act,
      (d.attrGet s m h t p sp DPI_OCI_ATTR_SERVER_STATUS act).2.2 =
        DPI_SUCCESS →
      enum ((d.attrGet s m h t p sp DPI_OCI_ATTR_SERVER_STATUS act).2.1 p))
    (h0 : enum DPI_OCI_SERVER_NOT_CONNECTED)
    (hn : enum DPI_OCI_SERVER_NORMAL)
    (h1 : 0 ≤ (connStart d w conn).2)
    (h1' : 0 ≤ (connCheck d w conn).2)
    (hs : (connAttr d w conn q).2.2 = DPI_SUCCESS) :
    (dpi_ext_dpiConn_getServerStatus d w conn q).2.1 = DPI_SUCCESS ∧
    enum ((dpi_ext_dpiConn_getServerStatus d w conn q).1.mem q) ∧
    DPI_OCI_SERVER_NOT_CONNECTED = 0x0 ∧
    DPI_OCI_SERVER_NORMAL = 0x1 := by
  rw [getServerStatus_eq_ok d w conn q (not_lt.mpr h1) (not_lt.mpr h1')]
  refine ⟨by rw [hend]; exact hs, ?_, rfl, rfl⟩
  have := henum (connCheck d w conn).1 w.mem conn.serverHandle
    DPI_OCI_HTYPE_SERVER q 0 "get server status"
  simp only [connAttr] at hs ⊢
  exact this hs

/-- Witness for C6: the all-succeeding driver writes 1, which lies in the
value space of numbers at most 1. -/
theorem claim_C6_witness :
    (dpi_ext_dpiConn_getServerStatus okDriver w0 conn0 101).2.1 =
      DPI_SUCCESS ∧
    ((dpi_ext_dpiConn_getServerStatus okDriver w0 conn0 101).1.mem 101)
      ≤ 1 ∧
    DPI_OCI_SERVER_NOT_CONNECTED = 0x0 ∧
    DPI_OCI_SERVER_NORMAL = 0x1 :=
  claim_C6_server_status_enum okDriver w0 conn0 101 (fun n => n ≤ 1)
    (fun _ _ _ => rfl)
    (fun s m h t p sp act _ => by simp [okDriver])
    (by decide) (by decide) (by decide) (by decide) (by decide)

/-- C7: idempotence.  If the first call leaves the driver's state — which
carries the handles' state — unchanged, and the driver's `dpiOci__attrGet`
is a point-in-time read (its status and the value it stores at the output
pointer depend only on the driver state and its arguments, never on what
the caller's output cell previously held), then an immediately repeated
call of either function yields the same return status and the same output
value both times, including when the first call wrote the output cell. -/
theorem claim_C7_idempotent {σ : Type} (d : Driver σ) (w : World σ)
    (stmt : DpiStmt) (conn : DpiConn) (p q : Ptr)
    (hend : ∀ s h v, (d.endPublicFn s h v).2 = v)
    (hattr : ∀ s m m' h t pp sp a act,
      (d.attrGet s m h t pp sp a act).2.2 =
        (d.attrGet s m' h t pp sp a act).2.2 ∧
      (d.attrGet s m h t pp sp a act).2.1 pp =
        (d.attrGet s m' h t pp sp a act).2.1 pp)
    (hs : (dpi_ext_dpiStmt_getFnCode d w stmt p).1.driver = w.driver)
    (hc : (dpi_ext_dpiConn_getServerStatus d w conn q).1.driver = w.driver) :
    ((dpi_ext_dpiStmt_getFnCode d
        (dpi_ext_dpiStmt_getFnCode d w stmt p).1 stmt p).2.1 =
      (dpi_ext_dpiStmt_getFnCode d w stmt p).2.1 ∧
     (dpi_ext_dpiStmt_getFnCode d
        (dpi_ext_dpiStmt_getFnCode d w stmt p).1 stmt p).1.mem p =
      (dpi_ext_dpiStmt_getFnCode d w stmt p).1.mem p) ∧
    ((dpi_ext_dpiConn_getServerStatus d
        (dpi_ext_dpiConn_getServerStatus d w conn q).1 conn q).2.1 =
      (dpi_ext_dpiConn_getServerStatus d w conn q).2.1 ∧
     (dpi_ext_dpiConn_getServerStatus d
        (dpi_ext_dpiConn_getServerStatus d w conn q).1 conn q).1.mem q =
      (dpi_ext_dpiConn_getServerStatus d w conn q).1.mem q) := by
  constructor
  · by_cases h : (stmtStart d w stmt).2 < 0
    · have hw1 : (dpi_ext_dpiStmt_getFnCode d w stmt p).1 =
          ⟨(d.endPublicFn (stmtStart d w stmt).1 stmt.id DPI_FAILURE).1,
            w.mem⟩ := by
        rw [getFnCode_eq_startFail d w stmt p h]
      have hd : (d.endPublicFn (stmtStart d w stmt).1 stmt.id
          DPI_FAILURE).1 = w.driver := by
        rw [hw1] at hs; exact hs
      have hw : (dpi_ext_dpiStmt_getFnCode d w stmt p).1 = w := by
        rw [hw1, hd]
      rw [hw]
      exact ⟨rfl, by rw [hw1]⟩
    · have hw1 : (dpi_ext_dpiStmt_getFnCode d w stmt p).1 =
          ⟨(d.endPublicFn (stmtAttr d w stmt p).1 stmt.id
              (stmtAttr d w stmt p).2.2).1, (stmtAttr d w stmt p).2.1⟩ := by
        rw [getFnCode_eq_ok d w stmt p h]
      have hd : (d.endPublicFn (stmtAttr d w stmt p).1 stmt.id
          (stmtAttr d w stmt p).2.2).1 = w.driver := by
        rw [hw1] at hs; exact hs
      have hw : (dpi_ext_dpiStmt_getFnCode d w stmt p).1 =
          ⟨w.driver, (stmtAttr d w stmt p).2.1⟩ := by
        rw [hw1, hd]
      rw [hw,
        getFnCode_eq_ok d ⟨w.driver, (stmtAttr d w stmt p).2.1⟩ stmt p h,
        getFnCode_eq_ok d w stmt p h]
      constructor
      · simp only [hend]
        exact (hattr (stmtStart d w stmt).1 (stmtAttr d w stmt p).2.1 w.mem
          stmt.handle DPI_OCI_HTYPE_STMT p 0 OCI_ATTR_SQLFNCODE
          "get sql function code").1
      · exact (hattr (stmtStart d w stmt).1 (stmtAttr d w stmt p).2.1 w.mem
          stmt.handle DPI_OCI_HTYPE_STMT p 0 OCI_ATTR_SQLFNCODE
          "get sql function code").2
  · by_cases h1 : (connStart d w conn).2 < 0
    · have hw1 : (dpi_ext_dpiConn_getServerStatus d w conn q).1 =
          ⟨(d.endPublicFn (connStart d w conn).1 conn.id DPI_FAILURE).1,
            w.mem⟩ := by
        rw [getServerStatus_eq_startFail d w conn q h1]
      have hd : (d.endPublicFn (connStart d w conn).1 conn.id
          DPI_FAILURE).1 = w.driver := by
        rw [hw1] at hc; exact hc
      have hw : (dpi_ext_dpiConn_getServerStatus d w conn q).1 = w := by
        rw [hw1, hd]
      rw [hw]
      exact ⟨rfl, by rw [hw1]⟩
    · by_cases h2 : (connCheck d w conn).2 < 0
      · have hw1 : (dpi_ext_dpiConn_getServerStatus d w conn q).1 =
            ⟨(d.endPublicFn (connCheck d w conn).1 conn.id DPI_FAILURE).1,
              w.mem⟩ := by
          rw [getServerStatus_eq_notConnected d w conn q h1 h2]
        have hd : (d.endPublicFn (connCheck d w conn).1 conn.id
            DPI_FAILURE).1 = w.driver := by
          rw [hw1] at hc; exact hc
        have hw : (dpi_ext_dpiConn_getServerStatus d w conn q).1 = w := by
          rw [hw1, hd]
        rw [hw]
        exact ⟨rfl, by rw [hw1]⟩
      · have hw1 : (dpi_ext_dpiConn_getServerStatus d w conn q).1 =
            ⟨(d.endPublicFn (connAttr d w conn q).1 conn.id
                (connAttr d w conn q).2.2).1, (connAttr d w conn q).2.1⟩ := by
          rw [getServerStatus_eq_ok d w conn q h1 h2]
        have hd : (d.endPublicFn (connAttr d w conn q).1 conn.id
            (connAttr d w conn q).2.2).1 = w.driver := by
          rw [hw1] at hc; exact hc
        have hw : (dpi_ext_dpiConn_getServerStatus d w conn q).1 =
            ⟨w.driver, (connAttr d w conn q).2.1⟩ := by
          rw [hw1, hd]
        rw [hw,
          getServerStatus_eq_ok d ⟨w.driver, (connAttr d w conn q).2.1⟩
            conn q h1 h2,
          getServerStatus_eq_ok d w conn q h1 h2]
        constructor
        · simp only [hend]
          exact (hattr (connCheck d w conn).1 (connAttr d w conn q).2.1
            w.mem conn.serverHandle DPI_OCI_HTYPE_SERVER q 0
            DPI_OCI_ATTR_SERVER_STATUS "get server status").1
        · exact (hattr (connCheck d w conn).1 (connAttr d w conn q).2.1
            w.mem conn.serverHandle DPI_OCI_HTYPE_SERVER q 0
            DPI_OCI_ATTR_SERVER_STATUS "get server status").2

/-- Witness for C7: the all-succeeding driver, whose `attrGet` genuinely
writes the retrieved value into the output cell; its (trivial) state is
unchanged by the first call, and the repeated call returns the same status
and the same output value. -/
theorem claim_C7_witness :
    ((dpi_ext_dpiStmt_getFnCode okDriver
        (dpi_ext_dpiStmt_getFnCode okDriver w0 stmt0 100).1 stmt0 100).2.1 =
      (dpi_ext_dpiStmt_getFnCode okDriver w0 stmt0 100).2.1 ∧
     (dpi_ext_dpiStmt_getFnCode okDriver
        (dpi_ext_dpiStmt_getFnCode okDriver w0 stmt0 100).1 stmt0
          100).1.mem 100 =
      (dpi_ext_dpiStmt_getFnCode okDriver w0 stmt0 100).1.mem 100) ∧
    ((dpi_ext_dpiConn_getServerStatus okDriver
        (dpi_ext_dpiConn_getServerStatus okDriver w0 conn0 101).1 conn0
          101).2.1 =
      (dpi_ext_dpiConn_getServerStatus okDriver w0 conn0 101).2.1 ∧
     (dpi_ext_dpiConn_getServerStatus okDriver
        (dpi_ext_dpiConn_getServerStatus okDriver w0 conn0 101).1 conn0
          101).1.mem 101 =
      (dpi_ext_dpiConn_getServerStatus okDriver w0 conn0 101).1.mem 101) :=
  claim_C7_idempotent okDriver w0 stmt0 conn0 100 101 (fun _ _ _ => rfl)
    (fun s m m' h t pp sp a act => ⟨rfl, by simp [okDriver]⟩) rfl rfl

/-- C8: frame property.  Under the driver contract that `dpiOci__attrGet`
writes caller-visible memory only at its output pointer, a call of either
function leaves every memory cell other than its own output cell unchanged:
the shim itself writes nothing (handles are read-only values in this layer;
driver-internal error-context mutation lives inside the opaque routines,
which do not receive caller memory at all except for `attrGet`). -/
theorem claim_C8_frame {σ : Type} (d : Driver σ) (w : World σ)
    (stmt : DpiStmt) (conn : DpiConn) (p q r : Ptr)
    (hframe : ∀ s m h t pp sp a act qq, qq ≠ pp →
      (d.attrGet s m h t pp sp a act).2.1 qq = m qq)
    (hp : r ≠ p) (hq : r ≠ q) :
    (dpi_ext_dpiStmt_getFnCode d w stmt p).1.mem r = w.mem r ∧
    (dpi_ext_dpiConn_getServerStatus d w conn q).1.mem r = w.mem r := by
  constructor
  · by_cases h : (stmtStart d w stmt).2 < 0
    · rw [getFnCode_eq_startFail d w stmt p h]
    · rw [getFnCode_eq_ok d w stmt p h]
      exact hframe _ _ _ _ _ _ _ _ r hp
  · by_cases h1 : (connStart d w conn).2 < 0
    · rw [getServerStatus_eq_startFail d w conn q h1]
    · by_cases h2 : (connCheck d w conn).2 < 0
      · rw [getServerStatus_eq_notConnected d w conn q h1 h2]
      · rw [getServerStatus_eq_ok d w conn q h1 h2]
        exact hframe _ _ _ _ _ _ _ _ r hq

/-- Witness for C8: the all-succeeding driver writes only at the output
pointer, so an unrelated cell keeps its value. -/
theorem claim_C8_witness :
    (dpi_ext_dpiStmt_getFnCode okDriver w0 stmt0 100).1.mem 5 =
      w0.mem 5 ∧
    (dpi_ext_dpiConn_getServerStatus okDriver w0 conn0 101).1.mem 5 =
      w0.mem 5 :=
  claim_C8_frame okDriver w0 stmt0 conn0 100 101 5
    (fun s m h t pp sp a act qq hqq => by simp [okDriver, hqq])
    (by decide) (by decide)

/-- C9: guard pairing.  On every path of both functions — including the path
on which the guard setup itself fails — the trace contains exactly one
`dpiGen__endPublicFn` call, it is the last external call, it is on the same
handle the trace's initial `dpiGen__startPublicFn` was begun on, and the
function's return value is exactly the value that `endPublicFn` call
returned.  (Both functions use a single error context, the local `dpiError
error`, for every external call, modelled by the single state thread.) -/
theorem claim_C9_guard_pairing {σ : Type} (d : Driver σ) (w : World σ)
    (stmt : DpiStmt) (conn : DpiConn) (p q : Ptr) :
    (∃ v,
      ((dpi_ext_dpiStmt_getFnCode d w stmt p).2.2).filter ExtCall.isEnd =
        [.endPublicFn stmt.id v
           (dpi_ext_dpiStmt_getFnCode d w stmt p).2.1] ∧
      ((dpi_ext_dpiStmt_getFnCode d w stmt p).2.2).getLast? =
        some (.endPublicFn stmt.id v
          (dpi_ext_dpiStmt_getFnCode d w stmt p).2.1) ∧
      ∃ r, ((dpi_ext_dpiStmt_getFnCode d w stmt p).2.2).head? =
        some (.startPublicFn stmt.id DPI_HTYPE_STMT
          "dpi_ext_dpiStmt_getFnCode" r)) ∧
    (∃ v,
      ((dpi_ext_dpiConn_getServerStatus d w conn q).2.2).filter
          ExtCall.isEnd =
        [.endPublicFn conn.id v
           (dpi_ext_dpiConn_getServerStatus d w conn q).2.1] ∧
      ((dpi_ext_dpiConn_getServerStatus d w conn q).2.2).getLast? =
        some (.endPublicFn conn.id v
          (dpi_ext_dpiConn_getServerStatus d w conn q).2.1) ∧
      ∃ r, ((dpi_ext_dpiConn_getServerStatus d w conn q).2.2).head? =
        some (.startPublicFn conn.id DPI_HTYPE_CONN
          "dpi_ext_dpiConn_getServerStatus" r)) := by
  constructor
  · by_cases h : (stmtStart d w stmt).2 < 0
    · rw [getFnCode_eq_startFail d w stmt p h]
      exact ⟨DPI_FAILURE, rfl, rfl, (stmtStart d w stmt).2, rfl⟩
    · rw [getFnCode_eq_ok d w stmt p h]
      exact ⟨(stmtAttr d w stmt p).2.2, rfl, rfl, (stmtStart d w stmt).2,
        rfl⟩
  · by_cases h1 : (connStart d w conn).2 < 0
    · rw [getServerStatus_eq_startFail d w conn q h1]
      exact ⟨DPI_FAILURE, rfl, rfl, (connStart d w conn).2, rfl⟩
    · by_cases h2 : (connCheck d w conn).2 < 0
      · rw [getServerStatus_eq_notConnected d w conn q h1 h2]
        exact ⟨DPI_FAILURE, rfl, rfl, (connStart d w conn).2, rfl⟩
      · rw [getServerStatus_eq_ok d w conn q h1 h2]
        exact ⟨(connAttr d w conn q).2.2, rfl, rfl, (connStart d w conn).2,
          rfl⟩

/-- C10: neither function validates the output pointer.  With a null output
pointer (address 0), whenever the guard (and, for the connection variant,
the connectedness check) succeeds, `dpiOci__attrGet` is still invoked with
that null pointer forwarded unchanged; and the final caller-visible memory
is exactly the memory `attrGet` produced — the shim's own code neither
reads nor writes through the output pointer on any path. -/
theorem claim_C10_null_out_forwarded {σ : Type} (d : Driver σ)
    (w : World σ) (stmt : DpiStmt) (conn : DpiConn)
    (h1 : 0 ≤ (stmtStart d w stmt).2)
    (h2 : 0 ≤ (connStart d w conn).2)
    (h3 : 0 ≤ (connCheck d w conn).2) :
    (ExtCall.attrGet stmt.handle DPI_OCI_HTYPE_STMT 0 0 OCI_ATTR_SQLFNCODE
       "get sql function code" (stmtAttr d w stmt 0).2.2)
      ∈ (dpi_ext_dpiStmt_getFnCode d w stmt 0).2.2 ∧
    (dpi_ext_dpiStmt_getFnCode d w stmt 0).1.mem =
      (stmtAttr d w stmt 0).2.1 ∧
    (ExtCall.attrGet conn.serverHandle DPI_OCI_HTYPE_SERVER 0 0
       DPI_OCI_ATTR_SERVER_STATUS "get server status"
       (connAttr d w conn 0).2.2)
      ∈ (dpi_ext_dpiConn_getServerStatus d w conn 0).2.2 ∧
    (dpi_ext_dpiConn_getServerStatus d w conn 0).1.mem =
      (connAttr d w conn 0).2.1 := by
  rw [getFnCode_eq_ok d w stmt 0 (not_lt.mpr h1),
    getServerStatus_eq_ok d w conn 0 (not_lt.mpr h2) (not_lt.mpr h3)]
  exact ⟨by simp, rfl, by simp, rfl⟩

/-- Witness for C10: the all-succeeding driver, with the null pointer as
output argument. -/
theorem claim_C10_witness :
    (ExtCall.attrGet stmt0.handle DPI_OCI_HTYPE_STMT 0 0 OCI_ATTR_SQLFNCODE
       "get sql function code" (stmtAttr okDriver w0 stmt0 0).2.2)
      ∈ (dpi_ext_dpiStmt_getFnCode okDriver w0 stmt0 0).2.2 ∧
    (dpi_ext_dpiStmt_getFnCode okDriver w0 stmt0 0).1.mem =
      (stmtAttr okDriver w0 stmt0 0).2.1 ∧
    (ExtCall.attrGet conn0.serverHandle DPI_OCI_HTYPE_SERVER 0 0
       DPI_OCI_ATTR_SERVER_STATUS "get server status"
       (connAttr okDriver w0 conn0 0).2.2)
      ∈ (dpi_ext_dpiConn_getServerStatus okDriver w0 conn0 0).2.2 ∧
    (dpi_ext_dpiConn_getServerStatus okDriver w0 conn0 0).1.mem =
      (connAttr okDriver w0 conn0 0).2.1 :=
  claim_C10_null_out_forwarded okDriver w0 stmt0 conn0
    (by decide) (by decide) (by decide)
